import Mathlib

/-!
# Verification of the webshot image-comparison engine

Shallow embedding of `src/comparison.rs` (the image-comparison engine of
the webshot tool) and proofs about it.

Modelling conventions:
* 8-bit pixel channels are modelled as `Nat` (the source guarantees the
  range 0..=255 via the `u8` type); intermediate `i16` arithmetic in
  `pixels_similar` is modelled with `Int`, which is exact on that range.
* `f64` arithmetic is modelled exactly: with `ℚ` where the source only
  uses field operations, and with `ℝ` where logarithms appear (PSNR).
  Decimal literals denote the corresponding rationals.
* Raster images are rectangular grids: a width, a height and a pixel
  lookup function; `get_pixel x y` of the source is the `pix` field.
* Fallible operations return `Except WebshotError`; the only error
  variant the comparison module constructs is a configuration error
  carrying a message string (`WebshotError::config`).
* Filesystem effects (saving the generated diff image, loading images
  from paths) are outside the embedding; the diff image itself is
  modelled as the constructed raster.
-/

namespace Webshot

/-- An RGB pixel: three 8-bit channels (`image::Rgb<u8>` in the source). -/
structure Rgb where
  r : Nat
  g : Nat
  b : Nat
deriving DecidableEq, Repr

/-- Channel access `pixel[i]` of the source, `i` ranging over 0..3. -/
def Rgb.channel (p : Rgb) : Fin 3 → Nat
  | 0 => p.r
  | 1 => p.g
  | 2 => p.b

/-- An RGB raster image (`image::RgbImage`): dimensions plus pixel lookup. -/
structure RgbImage where
  width : Nat
  height : Nat
  pix : Nat → Nat → Rgb

/-- A single-channel (grayscale / `Luma<u8>`) raster image. -/
structure GrayImage where
  width : Nat
  height : Nat
  pix : Nat → Nat → Nat

/-- The four comparison algorithms (`ComparisonAlgorithm`). -/
inductive ComparisonAlgorithm where
  | PixelDiff
  | SSIM
  | MSE
  | PSNR
deriving DecidableEq, Repr

/-- Default algorithm (`Default for ComparisonAlgorithm` in the source). -/
def ComparisonAlgorithm.default : ComparisonAlgorithm := .PixelDiff

/-- Comparison options (`ComparisonOptions`).  The diff output path is an
abstract string (the source uses `PathBuf`). -/
structure ComparisonOptions where
  algorithm : ComparisonAlgorithm
  threshold : ℚ
  generate_diff_image : Bool
  diff_output_path : Option String
  ignore_antialiasing : Bool
  diff_color : Nat × Nat × Nat
deriving DecidableEq, Repr

/-- Default options (`Default for ComparisonOptions` in the source). -/
def ComparisonOptions.defaultOptions : ComparisonOptions where
  algorithm := ComparisonAlgorithm.default
  threshold := 0.1
  generate_diff_image := false
  diff_output_path := none
  ignore_antialiasing := false
  diff_color := (255, 0, 0)

/-- The error type; the comparison module only ever constructs the
configuration variant `WebshotError::config(msg)` of `WebshotError`. -/
inductive WebshotError where
  | config (msg : String)
deriving DecidableEq, Repr

/-- The message of the dimension-mismatch error built by `compare_images`
(`format!("Image dimensions don't match: {:?} vs {:?}", d1, d2)`). -/
def dimension_mismatch_msg (d1 d2 : Nat × Nat) : String :=
  "Image dimensions don't match: " ++ toString d1 ++ " vs " ++ toString d2

/-- Source `ImageComparator::pixels_similar`: equal pixels are similar, otherwise
all three channel differences (computed in `i16`) must be within the
tolerance: 10 when `ignore_antialiasing` is set, else 2. -/
def pixels_similar (pixel1 pixel2 : Rgb) (ignore_antialiasing : Bool) : Bool :=
  if pixel1 = pixel2 then
    true
  else
    let threshold : Int := if ignore_antialiasing then 10 else 2
    let r_diff : Int := |(pixel1.r : Int) - (pixel2.r : Int)|
    let g_diff : Int := |(pixel1.g : Int) - (pixel2.g : Int)|
    let b_diff : Int := |(pixel1.b : Int) - (pixel2.b : Int)|
    decide (r_diff ≤ threshold) && decide (g_diff ≤ threshold) &&
      decide (b_diff ≤ threshold)

/-- Source `ImageComparator::pixel_diff_comparison`: count the pixel positions the
classifier deems different; similarity is `1 - different/total`. -/
def pixel_diff_comparison (img1 img2 : RgbImage) (options : ComparisonOptions) :
    ℚ × Option Nat :=
  let different_pixels : Nat :=
    ∑ y ∈ Finset.range img1.height, ∑ x ∈ Finset.range img1.width,
      if pixels_similar (img1.pix x y) (img2.pix x y) options.ignore_antialiasing
      then 0 else 1
  let total_pixels : Nat := img1.width * img1.height
  let similarity : ℚ := 1 - (different_pixels : ℚ) / (total_pixels : ℚ)
  (similarity, some different_pixels)

/-- The accumulated sum of squared per-channel differences over all pixel
positions; the body of the double loop shared by `mse_comparison` and the
inner MSE block of `psnr_comparison` (both loop `y`, `x`, then channel
`i in 0..3` adding `diff * diff`). -/
def sq_err_sum (img1 img2 : RgbImage) : ℚ :=
  ∑ y ∈ Finset.range img1.height, ∑ x ∈ Finset.range img1.width,
    ∑ i : Fin 3,
      (((img1.pix x y).channel i : ℚ) - ((img2.pix x y).channel i : ℚ)) ^ 2

/-- Source `ImageComparator::mse_comparison`: mean squared error over
`width*height*3` samples, mapped to a similarity `1 / (1 + mse/255)`. -/
def mse_comparison (img1 img2 : RgbImage) : ℚ :=
  let mse : ℚ := sq_err_sum img1 img2 / ((img1.width * img1.height * 3 : Nat) : ℚ)
  1 / (1 + mse / 255)

/-- The inner MSE block of `ImageComparator::psnr_comparison` (same loop as
`mse_comparison`, without the similarity mapping). -/
def psnr_mse (img1 img2 : RgbImage) : ℚ :=
  sq_err_sum img1 img2 / ((img1.width * img1.height * 3 : Nat) : ℚ)

open Classical in
/-- Source `ImageComparator::psnr_comparison`: 1.0 for zero MSE, otherwise
`psnr = 20*log10(255) - 10*log10(mse)` mapped by `psnr/100` with the
negative case sent to 0 and values above 1 capped by `min`. -/
noncomputable def psnr_comparison (img1 img2 : RgbImage) : ℝ :=
  let mse : ℚ := psnr_mse img1 img2
  if mse = 0 then
    1
  else
    let psnr : ℝ := 20 * Real.logb 10 255 - 10 * Real.logb 10 (mse : ℝ)
    if psnr < 0 then 0 else min (psnr / 100) 1

/-- Source `ImageComparator::rgb_to_grayscale`: fixed-weight luminance projection,
truncated to an 8-bit integer (the `as u8` cast of a non-negative `f64`
truncates, saturating at 255). -/
def rgb_to_grayscale (img : RgbImage) : GrayImage where
  width := img.width
  height := img.height
  pix := fun x y =>
    let pixel := img.pix x y
    min 255 (Nat.floor ((0.299 : ℚ) * (pixel.r : ℚ) + (0.587 : ℚ) * (pixel.g : ℚ)
      + (0.114 : ℚ) * (pixel.b : ℚ)))

/-- Source `ImageComparator::calculate_ssim` on grayscale images: global means,
unbiased variances/covariance (divisor `total_pixels - 1`), the SSIM
formula with `C1 = (0.01*255)^2`, `C2 = (0.03*255)^2`, clamped into
`[0,1]` by `.max(0.0).min(1.0)`.  The source wraps the value in `Ok`
and never errors. -/
def calculate_ssim (img1 img2 : GrayImage) : Except WebshotError ℚ :=
  let width := img1.width
  let height := img1.height
  let c1 : ℚ := ((0.01 : ℚ) * 255) ^ 2
  let c2 : ℚ := ((0.03 : ℚ) * 255) ^ 2
  let total_pixels : ℚ := ((width * height : Nat) : ℚ)
  let sum1 : ℚ := ∑ y ∈ Finset.range height, ∑ x ∈ Finset.range width,
    ((img1.pix x y : Nat) : ℚ)
  let sum2 : ℚ := ∑ y ∈ Finset.range height, ∑ x ∈ Finset.range width,
    ((img2.pix x y : Nat) : ℚ)
  let mean1 : ℚ := sum1 / total_pixels
  let mean2 : ℚ := sum2 / total_pixels
  let var1 : ℚ := (∑ y ∈ Finset.range height, ∑ x ∈ Finset.range width,
    (((img1.pix x y : Nat) : ℚ) - mean1) ^ 2) / (total_pixels - 1)
  let var2 : ℚ := (∑ y ∈ Finset.range height, ∑ x ∈ Finset.range width,
    (((img2.pix x y : Nat) : ℚ) - mean2) ^ 2) / (total_pixels - 1)
  let covar : ℚ := (∑ y ∈ Finset.range height, ∑ x ∈ Finset.range width,
    ((((img1.pix x y : Nat) : ℚ) - mean1) * (((img2.pix x y : Nat) : ℚ) - mean2)))
    / (total_pixels - 1)
  let numerator : ℚ := (2 * mean1 * mean2 + c1) * (2 * covar + c2)
  let denominator : ℚ := (mean1 * mean1 + mean2 * mean2 + c1) * (var1 + var2 + c2)
  let ssim : ℚ := numerator / denominator
  .ok (min (max ssim 0) 1)

/-- Source `ImageComparator::ssim_comparison`: project to grayscale, then SSIM. -/
def ssim_comparison (img1 img2 : RgbImage) : Except WebshotError ℚ :=
  let gray1 := rgb_to_grayscale img1
  let gray2 := rgb_to_grayscale img2
  calculate_ssim gray1 gray2

/-- Source `ImageComparator::generate_diff_image` as the raster it constructs
(the subsequent save to `output_path` is a filesystem effect outside the
embedding): dimensions of the first input; each pixel is the first
image's pixel when the classifier accepts the pair, else the configured
highlight color. -/
def generate_diff_image (img1 img2 : RgbImage) (options : ComparisonOptions) :
    RgbImage where
  width := img1.width
  height := img1.height
  pix := fun x y =>
    let pixel1 := img1.pix x y
    let pixel2 := img2.pix x y
    if pixels_similar pixel1 pixel2 options.ignore_antialiasing then
      pixel1
    else
      Rgb.mk options.diff_color.1 options.diff_color.2.1 options.diff_color.2.2

/-- The result record (`ComparisonResult`).  `similar` is the boolean
verdict of the source, modelled as the proposition it decides. -/
structure ComparisonResult where
  similar : Prop
  similarity : ℝ
  different_pixels : Option Nat
  total_pixels : Nat
  algorithm : ComparisonAlgorithm
  threshold : ℚ
  diff_image_path : Option String

/-- Source `ImageComparator::compare_images`: dimension check, dispatch on the
selected algorithm, threshold verdict, optional diff image.  The inputs
are already RGB rasters, so the source's `to_rgb8` conversion is the
identity here; the diff-image file save is a filesystem effect outside
the embedding (modelled as succeeding), and the recorded
`diff_image_path` is the output path exactly when the source would set
it (flag on and a path present). -/
noncomputable def compare_images (image1 image2 : RgbImage)
    (options : ComparisonOptions) : Except WebshotError ComparisonResult :=
  let img1 := image1
  let img2 := image2
  if (img1.width, img1.height) ≠ (img2.width, img2.height) then
    .error (.config (dimension_mismatch_msg (img1.width, img1.height)
      (img2.width, img2.height)))
  else
    let width := img1.width
    let height := img1.height
    let total_pixels := width * height
    (show Except WebshotError (ℝ × Option Nat) from
      match options.algorithm with
      | .PixelDiff =>
          .ok (((pixel_diff_comparison img1 img2 options).1 : ℝ),
            (pixel_diff_comparison img1 img2 options).2)
      | .SSIM => (ssim_comparison img1 img2).map fun s => ((s : ℝ), none)
      | .MSE => .ok ((mse_comparison img1 img2 : ℝ), none)
      | .PSNR => .ok (psnr_comparison img1 img2, none)
    ).bind fun sd =>
      let similarity := sd.1
      let different_pixels := sd.2
      let similar : Prop := similarity ≥ 1 - (options.threshold : ℝ)
      let diff_image_path : Option String :=
        if options.generate_diff_image then options.diff_output_path else none
      .ok { similar := similar
            similarity := similarity
            different_pixels := different_pixels
            total_pixels := total_pixels
            algorithm := options.algorithm
            threshold := options.threshold
            diff_image_path := diff_image_path }

/-- Source `ComparisonOptions::new` (same as the default). -/
def ComparisonOptions.new : ComparisonOptions := ComparisonOptions.defaultOptions

/-- Builder method `ComparisonOptions::algorithm`. -/
def ComparisonOptions.withAlgorithm (o : ComparisonOptions)
    (algorithm : ComparisonAlgorithm) : ComparisonOptions :=
  { o with algorithm := algorithm }

/-- Builder method `ComparisonOptions::threshold`: stores
`threshold.clamp(0.0, 1.0)`. -/
def ComparisonOptions.withThreshold (o : ComparisonOptions) (threshold : ℚ) :
    ComparisonOptions :=
  { o with threshold := min (max threshold 0) 1 }

/-- Builder method `ComparisonOptions::generate_diff_image`: sets the flag
and the output path together. -/
def ComparisonOptions.withGenerateDiffImage (o : ComparisonOptions)
    (output_path : String) : ComparisonOptions :=
  { o with generate_diff_image := true, diff_output_path := some output_path }

/-- Builder method `ComparisonOptions::ignore_antialiasing`. -/
def ComparisonOptions.withIgnoreAntialiasing (o : ComparisonOptions) :
    ComparisonOptions :=
  { o with ignore_antialiasing := true }

/-- Builder method `ComparisonOptions::diff_color`. -/
def ComparisonOptions.withDiffColor (o : ComparisonOptions) (r g b : Nat) :
    ComparisonOptions :=
  { o with diff_color := (r, g, b) }

/-- The message of the out-of-range-threshold configuration error of
`ComparisonOptions::validate`. -/
def threshold_range_msg (t : ℚ) : String :=
  "Threshold must be between 0.0 and 1.0, got: " ++ toString t

/-- The message of the missing-diff-path configuration error of
`ComparisonOptions::validate`. -/
def diff_path_missing_msg : String :=
  "Diff output path must be specified when generating diff image"

/-- Source `ComparisonOptions::validate`: reject a threshold outside `[0,1]`,
then a set `generate_diff_image` flag with no output path. -/
def ComparisonOptions.validate (o : ComparisonOptions) :
    Except WebshotError Unit :=
  if ¬ (0 ≤ o.threshold ∧ o.threshold ≤ 1) then
    .error (.config (threshold_range_msg o.threshold))
  else if o.generate_diff_image = true ∧ o.diff_output_path = none then
    .error (.config diff_path_missing_msg)
  else
    .ok ()

/-- Options values reachable through the source's builder chain: start
from `ComparisonOptions::new()` and apply any sequence of builder
methods. -/
inductive BuiltOptions : ComparisonOptions → Prop where
  | new : BuiltOptions ComparisonOptions.new
  | withAlgorithm (o : ComparisonOptions) (a : ComparisonAlgorithm) :
      BuiltOptions o → BuiltOptions (o.withAlgorithm a)
  | withThreshold (o : ComparisonOptions) (t : ℚ) :
      BuiltOptions o → BuiltOptions (o.withThreshold t)
  | withGenerateDiffImage (o : ComparisonOptions) (p : String) :
      BuiltOptions o → BuiltOptions (o.withGenerateDiffImage p)
  | withIgnoreAntialiasing (o : ComparisonOptions) :
      BuiltOptions o → BuiltOptions o.withIgnoreAntialiasing
  | withDiffColor (o : ComparisonOptions) (r g b : Nat) :
      BuiltOptions o → BuiltOptions (o.withDiffColor r g b)

/-!
## NaN-aware model of the unguarded float divisions

The engine performs its `f64` divisions without guarding the divisors:
`total_pixels - 1.0` in `calculate_ssim`, `total_pixels` in
`pixel_diff_comparison` and `width*height*3` in `mse_comparison`.  To
reason about what the compiled code does when such a divisor is zero,
the values are modelled as `Option ℚ` with `none` playing the role of
NaN.  Division by zero yields `none`; in this engine a zero divisor
arises only as `total_pixels - 1.0` on a one-pixel image or as
`total_pixels` (resp. `width*height*3`) on an empty image, and in every
one of those cases the dividend — an empty or all-zero accumulation —
is also zero, an IEEE `0/0 = NaN`, so the IEEE infinities never arise
on the paths these models are used for.  `fpMax`/`fpMin` follow Rust's
`f64::max`/`f64::min`, which return the other operand when one side is
NaN. -/

/-- NaN-propagating division: `none` on a zero divisor (the `0/0` case). -/
def fpDiv : Option ℚ → Option ℚ → Option ℚ
  | some a, some b => if b = 0 then none else some (a / b)
  | _, _ => none

/-- NaN-propagating addition. -/
def fpAdd : Option ℚ → Option ℚ → Option ℚ
  | some a, some b => some (a + b)
  | _, _ => none

/-- NaN-propagating subtraction. -/
def fpSub : Option ℚ → Option ℚ → Option ℚ
  | some a, some b => some (a - b)
  | _, _ => none

/-- NaN-propagating multiplication. -/
def fpMul : Option ℚ → Option ℚ → Option ℚ
  | some a, some b => some (a * b)
  | _, _ => none

/-- Rust `f64::max`: ignores a NaN operand. -/
def fpMax : Option ℚ → Option ℚ → Option ℚ
  | none, b => b
  | a, none => a
  | some a, some b => some (max a b)

/-- Rust `f64::min`: ignores a NaN operand. -/
def fpMin : Option ℚ → Option ℚ → Option ℚ
  | none, b => b
  | a, none => a
  | some a, some b => some (min a b)

/-- Source `ImageComparator::calculate_ssim` with the divisions NaN-aware.
Sums, products and differences of already-finite values are exact, so
the pixel loops are plain rational sums; the three divisions and the
final clamp go through the `fp` operations.  When a mean is NaN (empty
image) every later accumulation is NaN too, which the match's fallback
branch reflects. -/
def calculate_ssim_fp (img1 img2 : GrayImage) : Option ℚ :=
  let width := img1.width
  let height := img1.height
  let c1 : ℚ := ((0.01 : ℚ) * 255) ^ 2
  let c2 : ℚ := ((0.03 : ℚ) * 255) ^ 2
  let total_pixels : ℚ := ((width * height : Nat) : ℚ)
  let sum1 : ℚ := ∑ y ∈ Finset.range height, ∑ x ∈ Finset.range width,
    ((img1.pix x y : Nat) : ℚ)
  let sum2 : ℚ := ∑ y ∈ Finset.range height, ∑ x ∈ Finset.range width,
    ((img2.pix x y : Nat) : ℚ)
  let mean1 : Option ℚ := fpDiv (some sum1) (some total_pixels)
  let mean2 : Option ℚ := fpDiv (some sum2) (some total_pixels)
  let ssim : Option ℚ :=
    match mean1, mean2 with
    | some m1, some m2 =>
      let var1 : Option ℚ := fpDiv
        (some (∑ y ∈ Finset.range height, ∑ x ∈ Finset.range width,
          (((img1.pix x y : Nat) : ℚ) - m1) ^ 2))
        (some (total_pixels - 1))
      let var2 : Option ℚ := fpDiv
        (some (∑ y ∈ Finset.range height, ∑ x ∈ Finset.range width,
          (((img2.pix x y : Nat) : ℚ) - m2) ^ 2))
        (some (total_pixels - 1))
      let covar : Option ℚ := fpDiv
        (some (∑ y ∈ Finset.range height, ∑ x ∈ Finset.range width,
          ((((img1.pix x y : Nat) : ℚ) - m1) * (((img2.pix x y : Nat) : ℚ) - m2))))
        (some (total_pixels - 1))
      let numerator : Option ℚ :=
        fpMul (some (2 * m1 * m2 + c1)) (fpAdd (fpMul (some 2) covar) (some c2))
      let denominator : Option ℚ :=
        fpMul (some (m1 * m1 + m2 * m2 + c1)) (fpAdd (fpAdd var1 var2) (some c2))
      fpDiv numerator denominator
    | _, _ => none
  fpMin (fpMax ssim (some 0)) (some 1)

/-- Source `ImageComparator::pixel_diff_comparison`, similarity component,
with the division NaN-aware: the source computes
`1.0 - different_pixels as f64 / total_pixels as f64` with no guard, so
on a zero-pixel image the quotient is an IEEE `0.0/0.0 = NaN` (the
count of differing pixels over an empty grid is exactly 0) and the
similarity is NaN.  The differing-pixel count itself is exact integer
arithmetic and needs no NaN treatment. -/
def pixel_diff_similarity_fp (img1 img2 : RgbImage)
    (options : ComparisonOptions) : Option ℚ :=
  let different_pixels : Nat :=
    ∑ y ∈ Finset.range img1.height, ∑ x ∈ Finset.range img1.width,
      if pixels_similar (img1.pix x y) (img2.pix x y) options.ignore_antialiasing
      then 0 else 1
  let total_pixels : Nat := img1.width * img1.height
  fpSub (some 1)
    (fpDiv (some (different_pixels : ℚ)) (some ((total_pixels : Nat) : ℚ)))

/-- Source `ImageComparator::mse_comparison` with the divisions NaN-aware:
`mse /= (width * height * 3) as f64` is unguarded, so on a zero-pixel
image it is an IEEE `0.0/0.0 = NaN` (the accumulated sum over an empty
grid is exactly 0.0) and the NaN propagates through
`1.0 / (1.0 + mse / 255.0)`.  The divisors 255 and `1 + mse/255` are
nonzero whenever `mse` is a number (the sum of squares is nonnegative),
so the only NaN source is the empty-grid division. -/
def mse_comparison_fp (img1 img2 : RgbImage) : Option ℚ :=
  let mse : Option ℚ := fpDiv (some (sq_err_sum img1 img2))
    (some ((img1.width * img1.height * 3 : Nat) : ℚ))
  fpDiv (some 1) (fpAdd (some 1) (fpDiv mse (some 255)))

/-!
## Helper values and lemmas
-/

/-- The value inside the always-`Ok` result of `ssim_comparison`. -/
def ssimValue (img1 img2 : RgbImage) : ℚ :=
  match ssim_comparison img1 img2 with
  | .ok v => v
  | .error _ => 0

lemma ssim_comparison_eq_ok (img1 img2 : RgbImage) :
    ssim_comparison img1 img2 = .ok (ssimValue img1 img2) := rfl

lemma ssimValue_bounds (img1 img2 : RgbImage) :
    0 ≤ ssimValue img1 img2 ∧ ssimValue img1 img2 ≤ 1 := by
  show 0 ≤ min (max _ 0) 1 ∧ min (max _ 0) 1 ≤ 1
  exact ⟨le_min (le_max_right _ _) zero_le_one, min_le_right _ _⟩

lemma pixel_diff_count_le (img1 img2 : RgbImage) (options : ComparisonOptions) :
    (∑ y ∈ Finset.range img1.height, ∑ x ∈ Finset.range img1.width,
      if pixels_similar (img1.pix x y) (img2.pix x y) options.ignore_antialiasing
      then 0 else 1) ≤ img1.width * img1.height := by
  calc (∑ y ∈ Finset.range img1.height, ∑ x ∈ Finset.range img1.width,
        if pixels_similar (img1.pix x y) (img2.pix x y) options.ignore_antialiasing
        then 0 else 1)
      ≤ ∑ _y ∈ Finset.range img1.height, ∑ _x ∈ Finset.range img1.width, 1 := by
        refine Finset.sum_le_sum fun y _ => Finset.sum_le_sum fun x _ => ?_
        split <;> omega
    _ = img1.width * img1.height := by
        simp [mul_comm]

lemma pixel_diff_similarity_bounds (img1 img2 : RgbImage)
    (options : ComparisonOptions) :
    0 ≤ (pixel_diff_comparison img1 img2 options).1 ∧
      (pixel_diff_comparison img1 img2 options).1 ≤ 1 := by
  unfold pixel_diff_comparison
  set d : Nat := ∑ y ∈ Finset.range img1.height, ∑ x ∈ Finset.range img1.width,
    if pixels_similar (img1.pix x y) (img2.pix x y) options.ignore_antialiasing
    then 0 else 1 with hd
  have hle : d ≤ img1.width * img1.height := pixel_diff_count_le img1 img2 options
  rcases Nat.eq_zero_or_pos (img1.width * img1.height) with h0 | hpos
  · have hd0 : d = 0 := by omega
    simp [hd0, h0]
  · have hq : (0 : ℚ) < ((img1.width * img1.height : Nat) : ℚ) := by
      exact_mod_cast hpos
    have h1 : (d : ℚ) / ((img1.width * img1.height : Nat) : ℚ) ≤ 1 := by
      rw [div_le_one hq]
      exact_mod_cast hle
    have h2 : 0 ≤ (d : ℚ) / ((img1.width * img1.height : Nat) : ℚ) :=
      div_nonneg (Nat.cast_nonneg d) hq.le
    constructor <;> simp only <;> linarith

lemma sq_err_sum_nonneg (img1 img2 : RgbImage) : 0 ≤ sq_err_sum img1 img2 := by
  unfold sq_err_sum
  refine Finset.sum_nonneg fun y _ => Finset.sum_nonneg fun x _ =>
    Finset.sum_nonneg fun i _ => sq_nonneg _

lemma psnr_mse_nonneg (img1 img2 : RgbImage) : 0 ≤ psnr_mse img1 img2 :=
  div_nonneg (sq_err_sum_nonneg img1 img2) (Nat.cast_nonneg _)

lemma mse_comparison_bounds (img1 img2 : RgbImage) :
    0 ≤ mse_comparison img1 img2 ∧ mse_comparison img1 img2 ≤ 1 := by
  unfold mse_comparison
  have hmse : 0 ≤ sq_err_sum img1 img2 / ((img1.width * img1.height * 3 : Nat) : ℚ) :=
    div_nonneg (sq_err_sum_nonneg img1 img2) (Nat.cast_nonneg _)
  constructor
  · exact div_nonneg zero_le_one (by linarith)
  · rw [div_le_one (by linarith)]
    linarith

lemma pixel_diff_fp_agrees (img1 img2 : RgbImage) (options : ComparisonOptions)
    (h : 0 < img1.width * img1.height) :
    pixel_diff_similarity_fp img1 img2 options =
      some (pixel_diff_comparison img1 img2 options).1 := by
  have hwh : img1.width ≠ 0 ∧ img1.height ≠ 0 :=
    Nat.mul_ne_zero_iff.mp (Nat.pos_iff_ne_zero.mp h)
  simp [pixel_diff_similarity_fp, pixel_diff_comparison, fpSub, fpDiv,
    hwh.1, hwh.2]

lemma mse_comparison_fp_agrees (img1 img2 : RgbImage)
    (h : 0 < img1.width * img1.height) :
    mse_comparison_fp img1 img2 = some (mse_comparison img1 img2) := by
  have hwh : img1.width ≠ 0 ∧ img1.height ≠ 0 :=
    Nat.mul_ne_zero_iff.mp (Nat.pos_iff_ne_zero.mp h)
  have hq : 0 ≤ sq_err_sum img1 img2 /
      ((img1.width : ℚ) * (img1.height : ℚ) * 3) :=
    div_nonneg (sq_err_sum_nonneg img1 img2) (by positivity)
  have hden : (1 : ℚ) +
      sq_err_sum img1 img2 / ((img1.width : ℚ) * (img1.height : ℚ) * 3) / 255
        ≠ 0 := by
    have h255 : 0 ≤ sq_err_sum img1 img2 /
        ((img1.width : ℚ) * (img1.height : ℚ) * 3) / 255 :=
      div_nonneg hq (by norm_num)
    intro hc
    linarith
  simp [mse_comparison_fp, mse_comparison, fpDiv, fpAdd, hwh.1, hwh.2, hden,
    (show (255 : ℚ) ≠ 0 by norm_num)]

lemma psnr_comparison_bounds (img1 img2 : RgbImage) :
    0 ≤ psnr_comparison img1 img2 ∧ psnr_comparison img1 img2 ≤ 1 := by
  simp only [psnr_comparison]
  split_ifs with h1 h2
  · exact ⟨zero_le_one, le_refl 1⟩
  · exact ⟨le_refl 0, zero_le_one⟩
  · exact ⟨le_min (div_nonneg (not_lt.mp h2) (by norm_num)) zero_le_one,
      min_le_right _ _⟩

lemma compare_images_mismatch_eq (img1 img2 : RgbImage)
    (options : ComparisonOptions)
    (h : (img1.width, img1.height) ≠ (img2.width, img2.height)) :
    compare_images img1 img2 options =
      .error (.config (dimension_mismatch_msg (img1.width, img1.height)
        (img2.width, img2.height))) := by
  unfold compare_images
  rw [if_pos h]

lemma compare_images_ok_inv (img1 img2 : RgbImage) (options : ComparisonOptions)
    (r : ComparisonResult) (h : compare_images img1 img2 options = .ok r) :
    r.threshold = options.threshold ∧
    r.algorithm = options.algorithm ∧
    r.total_pixels = img1.width * img1.height ∧
    (r.similar ↔ 1 - (options.threshold : ℝ) ≤ r.similarity) ∧
    (r.diff_image_path =
      if options.generate_diff_image then options.diff_output_path else none) ∧
    (match options.algorithm with
     | .PixelDiff =>
         r.similarity = ((pixel_diff_comparison img1 img2 options).1 : ℝ) ∧
         r.different_pixels = (pixel_diff_comparison img1 img2 options).2
     | .SSIM =>
         r.similarity = ((ssimValue img1 img2 : ℚ) : ℝ) ∧
         r.different_pixels = none
     | .MSE =>
         r.similarity = ((mse_comparison img1 img2 : ℚ) : ℝ) ∧
         r.different_pixels = none
     | .PSNR =>
         r.similarity = psnr_comparison img1 img2 ∧
         r.different_pixels = none) := by
  unfold compare_images at h
  by_cases hdim : (img1.width, img1.height) ≠ (img2.width, img2.height)
  · rw [if_pos hdim] at h
    exact absurd h (by simp)
  · rw [if_neg hdim] at h
    cases halg : options.algorithm <;> rw [halg] at h <;>
      simp only [ssim_comparison_eq_ok, Except.map, Except.bind] at h <;>
      rw [show (.ok r : Except WebshotError ComparisonResult) = .ok r from rfl] at h <;>
      cases h <;>
      simp [halg]

lemma compare_images_ok_of_dims (img1 img2 : RgbImage)
    (options : ComparisonOptions)
    (h : (img1.width, img1.height) = (img2.width, img2.height)) :
    ∃ r, compare_images img1 img2 options = .ok r := by
  unfold compare_images
  rw [if_neg (not_not_intro h)]
  cases halg : options.algorithm <;>
    simp [halg, ssim_comparison_eq_ok, Except.map, Except.bind]

/-!
## Concrete fixtures used by the witnesses
-/

/-- A 2x2 solid image. -/
def imgA : RgbImage := { width := 2, height := 2, pix := fun _ _ => ⟨10, 20, 30⟩ }

/-- A 2x2 solid image far from `imgA` in the red channel. -/
def imgB : RgbImage := { width := 2, height := 2, pix := fun _ _ => ⟨200, 20, 30⟩ }

/-- A 3x2 solid image (dimension mismatch with `imgA`). -/
def imgWide : RgbImage := { width := 3, height := 2, pix := fun _ _ => ⟨10, 20, 30⟩ }

/-- A one-pixel grayscale image. -/
def gray1 : GrayImage := { width := 1, height := 1, pix := fun _ _ => 128 }

/-- A zero-pixel (0x0) image; constructible as a `DynamicImage` and
accepted by `compare_images` (it equals its own dimensions). -/
def img0 : RgbImage := { width := 0, height := 0, pix := fun _ _ => ⟨0, 0, 0⟩ }

/-- Default options with an out-of-range threshold smuggled in directly
(bypassing the clamping builder), as a struct literal can in Rust. -/
def optionsBadThreshold : ComparisonOptions :=
  { ComparisonOptions.defaultOptions with threshold := 2 }

/-!
## The claims
-/

/-- C1: for every pair of equal-dimension images and every options value,
the `ComparisonResult` returned by `compare_images` satisfies
`similar == (similarity >= 1.0 - threshold)` with `threshold` the
options' threshold, for every one of the four algorithms (the options,
and hence the algorithm, are arbitrary). -/
theorem compare_images_similar_iff (img1 img2 : RgbImage)
    (options : ComparisonOptions) (r : ComparisonResult)
    (h : compare_images img1 img2 options = .ok r) :
    r.similar ↔ r.similarity ≥ 1 - (options.threshold : ℝ) :=
  (compare_images_ok_inv img1 img2 options r h).2.2.2.1

/-- Witness for C1: a concrete successful comparison. -/
theorem compare_images_similar_iff_witness :
    ∃ r : ComparisonResult,
      compare_images imgA imgA ComparisonOptions.defaultOptions = .ok r ∧
      (r.similar ↔
        r.similarity ≥ 1 - ((ComparisonOptions.defaultOptions.threshold : ℚ) : ℝ)) :=
  ⟨_, rfl, compare_images_similar_iff imgA imgA ComparisonOptions.defaultOptions _ rfl⟩

/-- C2 counterexample: on the equal-dimension zero-pixel pair
`(img0, img0)` the float similarity computation of both PixelDiff and
MSE divides `0.0` by `0.0` and yields NaN (modelled `none`), which is
not a number in `[0, 1]` — so "for every pair of equal-dimension
images the similarity lies in [0,1]" fails as stated.  The result is
`none` and in particular not `some q` for any rational `q`, and
`compare_images` accepts the pair (no dimension error shields the
division). -/
theorem similarity_unit_interval_cex :
    pixel_diff_similarity_fp img0 img0 ComparisonOptions.defaultOptions
      = none ∧
    mse_comparison_fp img0 img0 = none ∧
    pixel_diff_similarity_fp img0 img0 ComparisonOptions.defaultOptions
      ≠ some 1 ∧
    mse_comparison_fp img0 img0 ≠ some 1 := by
  refine ⟨rfl, rfl, ?_, ?_⟩ <;> decide

/-- C2 amended: for every pair of equal-dimension images with at least
one pixel, the similarity computed by any successful run of
`compare_images` (under any options, hence under each of the four
algorithms) lies in `[0, 1]`.  Under the at-least-one-pixel hypothesis
the exact-rational model used here agrees with the NaN-aware float
model for the PixelDiff and MSE divisions (`pixel_diff_fp_agrees`,
`mse_comparison_fp_agrees`): no division by zero, hence no NaN,
arises; zero-pixel images are excluded because there the float code
computes NaN (see the C2 counterexample above). -/
theorem similarity_mem_unit_interval (img1 img2 : RgbImage)
    (options : ComparisonOptions) (r : ComparisonResult)
    (_hpix : 0 < img1.width * img1.height)
    (h : compare_images img1 img2 options = .ok r) :
    0 ≤ r.similarity ∧ r.similarity ≤ 1 := by
  obtain ⟨-, -, -, -, -, halg⟩ := compare_images_ok_inv img1 img2 options r h
  cases hA : options.algorithm <;> rw [hA] at halg
  · obtain ⟨hs, -⟩ := halg
    have hb := pixel_diff_similarity_bounds img1 img2 options
    rw [hs]
    exact ⟨by exact_mod_cast hb.1, by exact_mod_cast hb.2⟩
  · obtain ⟨hs, -⟩ := halg
    have hb := ssimValue_bounds img1 img2
    rw [hs]
    exact ⟨by exact_mod_cast hb.1, by exact_mod_cast hb.2⟩
  · obtain ⟨hs, -⟩ := halg
    have hb := mse_comparison_bounds img1 img2
    rw [hs]
    exact ⟨by exact_mod_cast hb.1, by exact_mod_cast hb.2⟩
  · obtain ⟨hs, -⟩ := halg
    rw [hs]
    exact psnr_comparison_bounds img1 img2

/-- Witness for the amended C2: a concrete successful comparison of a
nonempty (2x2) pair. -/
theorem similarity_mem_unit_interval_witness :
    ∃ r : ComparisonResult,
      compare_images imgA imgB
        (ComparisonOptions.defaultOptions.withAlgorithm .MSE) = .ok r ∧
      (0 ≤ r.similarity ∧ r.similarity ≤ 1) :=
  ⟨_, rfl, similarity_mem_unit_interval imgA imgB
    (ComparisonOptions.defaultOptions.withAlgorithm .MSE) _ (by decide) rfl⟩

/-- C4: whenever the two images' dimensions differ, `compare_images`
returns the dimension-mismatch configuration error carrying both
dimension pairs, and never a computed result, for any options (hence any
algorithm). -/
theorem compare_images_dimension_mismatch (img1 img2 : RgbImage)
    (options : ComparisonOptions)
    (h : (img1.width, img1.height) ≠ (img2.width, img2.height)) :
    compare_images img1 img2 options =
      .error (.config (dimension_mismatch_msg (img1.width, img1.height)
        (img2.width, img2.height))) ∧
    ∀ r : ComparisonResult, compare_images img1 img2 options ≠ .ok r := by
  have he := compare_images_mismatch_eq img1 img2 options h
  refine ⟨he, fun r hr => ?_⟩
  rw [he] at hr
  cases hr

/-- Witness for C4: a concrete mismatched pair. -/
theorem compare_images_dimension_mismatch_witness :
    compare_images imgA imgWide ComparisonOptions.defaultOptions =
      .error (.config (dimension_mismatch_msg (2, 2) (3, 2))) ∧
    ∀ r : ComparisonResult,
      compare_images imgA imgWide ComparisonOptions.defaultOptions ≠ .ok r :=
  compare_images_dimension_mismatch imgA imgWide ComparisonOptions.defaultOptions
    (by decide)

/-- C5: the pixel classifier accepts a pair iff each of the three
per-channel absolute differences is at most the tolerance — 10 with
`ignore_antialiasing`, else 2 — and exactly equal pixels are always
accepted; the function is total (it is defined for all inputs and
returns a `Bool`). -/
theorem pixels_similar_spec (p1 p2 : Rgb) (ia : Bool) :
    (pixels_similar p1 p2 ia = true ↔
      (|(p1.r : Int) - (p2.r : Int)| ≤ (if ia then 10 else 2) ∧
       |(p1.g : Int) - (p2.g : Int)| ≤ (if ia then 10 else 2) ∧
       |(p1.b : Int) - (p2.b : Int)| ≤ (if ia then 10 else 2))) ∧
    (p1 = p2 → pixels_similar p1 p2 ia = true) := by
  constructor
  · unfold pixels_similar
    by_cases hp : p1 = p2
    · subst hp
      rw [if_pos rfl]
      simp only [sub_self, abs_zero, true_iff]
      refine ⟨?_, ?_, ?_⟩ <;> cases ia <;> norm_num
    · rw [if_neg hp]
      simp [and_assoc]
  · intro hp
    subst hp
    unfold pixels_similar
    rw [if_pos rfl]

/-- Witness for C5: equal pixels are accepted. -/
theorem pixels_similar_spec_witness :
    pixels_similar ⟨10, 20, 30⟩ ⟨10, 20, 30⟩ false = true :=
  (pixels_similar_spec ⟨10, 20, 30⟩ ⟨10, 20, 30⟩ false).2 rfl

/-- C3 counterexample: `compare_images` does not validate its options.
With a threshold of 2 — which `ComparisonOptions::validate` rejects as a
configuration error — `compare_images` still returns a computed
`ComparisonResult` instead of failing fast. -/
theorem compare_images_skips_validation_cex :
    ComparisonOptions.validate optionsBadThreshold =
      .error (.config (threshold_range_msg 2)) ∧
    ∃ r : ComparisonResult,
      compare_images imgA imgA optionsBadThreshold = .ok r :=
  ⟨rfl, _, rfl⟩

/-- C3 amended: `compare_images` performs no options validation at all —
whenever the dimensions match it returns a computed result, even for
options that `ComparisonOptions::validate` rejects.  Validation is the
separate operation `validate`, which accepts exactly the options whose
threshold lies in `[0,1]` and whose diff-image flag is accompanied by an
output path, and which callers (the CLI) run before comparing. -/
theorem validate_spec_and_compare_no_validation :
    (∀ o : ComparisonOptions,
      o.validate = .ok () ↔
        (0 ≤ o.threshold ∧ o.threshold ≤ 1 ∧
          ¬(o.generate_diff_image = true ∧ o.diff_output_path = none))) ∧
    (∀ (img1 img2 : RgbImage) (o : ComparisonOptions),
      (img1.width, img1.height) = (img2.width, img2.height) →
      ∃ r, compare_images img1 img2 o = .ok r) := by
  constructor
  · intro o
    unfold ComparisonOptions.validate
    by_cases hb : 0 ≤ o.threshold ∧ o.threshold ≤ 1
    · rw [if_neg (not_not_intro hb)]
      by_cases hd : o.generate_diff_image = true ∧ o.diff_output_path = none
      · rw [if_pos hd]
        exact iff_of_false (by simp) fun h => h.2.2 hd
      · rw [if_neg hd]
        exact iff_of_true rfl ⟨hb.1, hb.2, hd⟩
    · rw [if_pos hb]
      exact iff_of_false (by simp) fun h => hb ⟨h.1, h.2.1⟩
  · exact compare_images_ok_of_dims

/-- Witness for the amended C3: a concrete matching pair compares
successfully. -/
theorem validate_spec_and_compare_no_validation_witness :
    ∃ r, compare_images imgA imgB ComparisonOptions.defaultOptions = .ok r :=
  validate_spec_and_compare_no_validation.2 imgA imgB
    ComparisonOptions.defaultOptions rfl

/-- C6: the synthesized diff image has the dimensions of the (equal-
dimension) inputs; each of its pixels is exactly the first image's pixel
when the pixel classifier accepts the pair and exactly the configured
diff color when it does not, and no third value occurs; the construction
ignores the selected scoring algorithm entirely. -/
theorem generate_diff_image_spec (img1 img2 : RgbImage)
    (options : ComparisonOptions)
    (hw : img1.width = img2.width) (hh : img1.height = img2.height) :
    ((generate_diff_image img1 img2 options).width = img1.width ∧
     (generate_diff_image img1 img2 options).height = img1.height ∧
     (generate_diff_image img1 img2 options).width = img2.width ∧
     (generate_diff_image img1 img2 options).height = img2.height) ∧
    (∀ x y,
      (pixels_similar (img1.pix x y) (img2.pix x y)
          options.ignore_antialiasing = true →
        (generate_diff_image img1 img2 options).pix x y = img1.pix x y) ∧
      (pixels_similar (img1.pix x y) (img2.pix x y)
          options.ignore_antialiasing = false →
        (generate_diff_image img1 img2 options).pix x y =
          Rgb.mk options.diff_color.1 options.diff_color.2.1
            options.diff_color.2.2)) ∧
    (∀ x y,
      (generate_diff_image img1 img2 options).pix x y = img1.pix x y ∨
      (generate_diff_image img1 img2 options).pix x y =
        Rgb.mk options.diff_color.1 options.diff_color.2.1
          options.diff_color.2.2) ∧
    (∀ a : ComparisonAlgorithm,
      generate_diff_image img1 img2 { options with algorithm := a } =
        generate_diff_image img1 img2 options) := by
  refine ⟨⟨rfl, rfl, hw, hh⟩, fun x y => ⟨?_, ?_⟩, fun x y => ?_, fun a => rfl⟩
  · intro hsim
    simp [generate_diff_image, hsim]
  · intro hdiff
    simp [generate_diff_image, hdiff]
  · cases hc : pixels_similar (img1.pix x y) (img2.pix x y)
      options.ignore_antialiasing
    · right
      simp [generate_diff_image, hc]
    · left
      simp [generate_diff_image, hc]

/-- Witness for C6: concrete equal-dimension inputs. -/
theorem generate_diff_image_spec_witness :
    (generate_diff_image imgA imgB ComparisonOptions.defaultOptions).width =
        imgA.width ∧
      (generate_diff_image imgA imgB ComparisonOptions.defaultOptions).pix 0 0 =
        imgA.pix 0 0 ∨
      (generate_diff_image imgA imgB ComparisonOptions.defaultOptions).pix 0 0 =
        Rgb.mk 255 0 0 := by
  rcases (generate_diff_image_spec imgA imgB ComparisonOptions.defaultOptions
    rfl rfl).2.2.1 0 0 with h | h
  · exact Or.inl ⟨rfl, h⟩
  · exact Or.inr h

/-- C7: the MSE algorithm computes the mean of the squared per-channel
differences over all pixel positions — the sum over the whole pixel grid
of the three squared channel differences, divided by `width*height*3` —
and returns exactly `1 / (1 + mse/255)`. -/
theorem mse_comparison_formula (img1 img2 : RgbImage)
    (_hw : img1.width = img2.width) (_hh : img1.height = img2.height) :
    mse_comparison img1 img2 =
      1 / (1 +
        ((∑ p ∈ Finset.range img1.width ×ˢ Finset.range img1.height,
          ∑ i : Fin 3,
            (((img1.pix p.1 p.2).channel i : ℚ) -
              ((img2.pix p.1 p.2).channel i : ℚ)) ^ 2) /
          ((img1.width * img1.height * 3 : Nat) : ℚ)) / 255) := by
  have hs : sq_err_sum img1 img2 =
      ∑ p ∈ Finset.range img1.width ×ˢ Finset.range img1.height,
        ∑ i : Fin 3,
          (((img1.pix p.1 p.2).channel i : ℚ) -
            ((img2.pix p.1 p.2).channel i : ℚ)) ^ 2 := by
    unfold sq_err_sum
    rw [Finset.sum_product]
    exact Finset.sum_comm
  unfold mse_comparison
  rw [hs]

/-- Witness for C7: concrete equal-dimension inputs. -/
theorem mse_comparison_formula_witness :
    mse_comparison imgA imgB =
      1 / (1 +
        ((∑ p ∈ Finset.range imgA.width ×ˢ Finset.range imgA.height,
          ∑ i : Fin 3,
            (((imgA.pix p.1 p.2).channel i : ℚ) -
              ((imgB.pix p.1 p.2).channel i : ℚ)) ^ 2) /
          ((imgA.width * imgA.height * 3 : Nat) : ℚ)) / 255) :=
  mse_comparison_formula imgA imgB rfl rfl

/-- C8: the PSNR algorithm returns exactly 1 when the MSE (computed with
denominator `width*height*3`) is zero; otherwise it returns the clamp of
`(20*log10(255) - 10*log10(mse)) / 100` to `[0,1]`, so a negative
`psnr_db` maps to 0 and a `psnr_db` above 100 maps to 1. -/
theorem psnr_comparison_formula (img1 img2 : RgbImage)
    (_hw : img1.width = img2.width) (_hh : img1.height = img2.height) :
    (psnr_comparison img1 img2 =
      if psnr_mse img1 img2 = 0 then (1 : ℝ)
      else
        max 0 (min ((20 * Real.logb 10 255 -
          10 * Real.logb 10 ((psnr_mse img1 img2 : ℚ) : ℝ)) / 100) 1)) ∧
    (psnr_mse img1 img2 ≠ 0 →
      20 * Real.logb 10 255 - 10 * Real.logb 10 ((psnr_mse img1 img2 : ℚ) : ℝ)
        < 0 →
      psnr_comparison img1 img2 = 0) ∧
    (psnr_mse img1 img2 ≠ 0 →
      100 < 20 * Real.logb 10 255 -
        10 * Real.logb 10 ((psnr_mse img1 img2 : ℚ) : ℝ) →
      psnr_comparison img1 img2 = 1) := by
  have key : psnr_comparison img1 img2 =
      if psnr_mse img1 img2 = 0 then (1 : ℝ)
      else
        max 0 (min ((20 * Real.logb 10 255 -
          10 * Real.logb 10 ((psnr_mse img1 img2 : ℚ) : ℝ)) / 100) 1) := by
    simp only [psnr_comparison]
    by_cases hm : psnr_mse img1 img2 = 0
    · simp [hm]
    · rw [if_neg hm, if_neg hm]
      set psnr : ℝ := 20 * Real.logb 10 255 -
        10 * Real.logb 10 ((psnr_mse img1 img2 : ℚ) : ℝ) with hp
      by_cases hneg : psnr < 0
      · rw [if_pos hneg]
        have h1 : psnr / 100 < 0 := div_neg_of_neg_of_pos hneg (by norm_num)
        rw [min_eq_left (by linarith), max_eq_left (by linarith)]
      · rw [if_neg hneg]
        push_neg at hneg
        have h1 : 0 ≤ psnr / 100 := div_nonneg hneg (by norm_num)
        rw [max_eq_right (le_min h1 zero_le_one)]
  refine ⟨key, ?_, ?_⟩
  · intro hm hneg
    rw [key, if_neg hm]
    have h1 : (20 * Real.logb 10 255 -
        10 * Real.logb 10 ((psnr_mse img1 img2 : ℚ) : ℝ)) / 100 < 0 :=
      div_neg_of_neg_of_pos hneg (by norm_num)
    rw [min_eq_left (by linarith), max_eq_left (by linarith)]
  · intro hm hbig
    rw [key, if_neg hm]
    have h1 : (1 : ℝ) ≤ (20 * Real.logb 10 255 -
        10 * Real.logb 10 ((psnr_mse img1 img2 : ℚ) : ℝ)) / 100 :=
      (le_div_iff₀ (by norm_num : (0 : ℝ) < 100)).mpr (by linarith)
    rw [min_eq_right h1, max_eq_right zero_le_one]

/-- Witness for C8: concrete equal-dimension inputs. -/
theorem psnr_comparison_formula_witness :
    psnr_comparison imgA imgA =
      if psnr_mse imgA imgA = 0 then (1 : ℝ)
      else
        max 0 (min ((20 * Real.logb 10 255 -
          10 * Real.logb 10 ((psnr_mse imgA imgA : ℚ) : ℝ)) / 100) 1) :=
  (psnr_comparison_formula imgA imgA rfl rfl).1

/-- C9: the builder method `ComparisonOptions::threshold` stores the
clamp of its argument to `[0,1]` rather than the argument itself (it
never rejects), so every options value reachable through the builder
chain has its threshold in `[0,1]` and passes the threshold check of
`validate` — for built options, `validate`'s outcome is governed solely
by the diff-path check. -/
theorem threshold_builder_clamps :
    (∀ (o : ComparisonOptions) (t : ℚ),
      (o.withThreshold t).threshold = min (max t 0) 1) ∧
    (∀ o : ComparisonOptions, BuiltOptions o →
      0 ≤ o.threshold ∧ o.threshold ≤ 1 ∧
      (o.validate = .ok () ↔
        ¬(o.generate_diff_image = true ∧ o.diff_output_path = none))) := by
  have hb : ∀ o : ComparisonOptions, BuiltOptions o →
      0 ≤ o.threshold ∧ o.threshold ≤ 1 := by
    intro o hbuilt
    induction hbuilt with
    | new =>
        constructor <;>
          norm_num [ComparisonOptions.new, ComparisonOptions.defaultOptions]
    | withAlgorithm o a _ ih => exact ih
    | withThreshold o t _ _ =>
        exact ⟨le_min (le_max_right _ _) zero_le_one, min_le_right _ _⟩
    | withGenerateDiffImage o p _ ih => exact ih
    | withIgnoreAntialiasing o _ ih => exact ih
    | withDiffColor o r g b _ ih => exact ih
  refine ⟨fun o t => rfl, fun o hbuilt => ?_⟩
  obtain ⟨h0, h1⟩ := hb o hbuilt
  refine ⟨h0, h1, ?_⟩
  unfold ComparisonOptions.validate
  rw [if_neg (not_not_intro ⟨h0, h1⟩)]
  by_cases hd : o.generate_diff_image = true ∧ o.diff_output_path = none
  · rw [if_pos hd]
    exact iff_of_false (by simp) fun hc => hc hd
  · rw [if_neg hd]
    exact iff_of_true rfl hd

/-- Witness for C9: an out-of-range builder argument is clamped, and the
resulting built options pass validation. -/
theorem threshold_builder_clamps_witness :
    (ComparisonOptions.new.withThreshold 5).threshold = min (max 5 0) 1 ∧
    (0 ≤ (ComparisonOptions.new.withThreshold 5).threshold ∧
     (ComparisonOptions.new.withThreshold 5).threshold ≤ 1 ∧
     ((ComparisonOptions.new.withThreshold 5).validate = .ok () ↔
       ¬((ComparisonOptions.new.withThreshold 5).generate_diff_image = true ∧
         (ComparisonOptions.new.withThreshold 5).diff_output_path = none))) :=
  ⟨threshold_builder_clamps.1 ComparisonOptions.new 5,
   threshold_builder_clamps.2 _
     (BuiltOptions.withThreshold ComparisonOptions.new 5 BuiltOptions.new)⟩

/-- C10: the SSIM computation divides the variance/covariance sums by
`total_pixels - 1` with no guard; for a nonempty image that divisor is
nonzero exactly when `width*height ≥ 2`, and on a pair of identical 1x1
images the zero divisor is reached, so in the NaN-propagating model of
the float arithmetic the clamped result is 0, not the 1.0 one would
expect for identical images. -/
theorem ssim_single_pixel_nan :
    (∀ w h : Nat, 1 ≤ w * h →
      (((w * h : Nat) : ℚ) - 1 ≠ 0 ↔ 2 ≤ w * h)) ∧
    (∀ g : GrayImage, g.width = 1 → g.height = 1 →
      ((g.width * g.height : Nat) : ℚ) - 1 = 0 ∧
      calculate_ssim_fp g g = some 0 ∧
      calculate_ssim_fp g g ≠ some 1) := by
  constructor
  · intro w h h1
    constructor
    · intro hne
      by_contra hlt
      push_neg at hlt
      have h2 : w * h = 1 := by omega
      rw [h2] at hne
      simp at hne
    · intro h2 hc
      have h3 : ((w * h : Nat) : ℚ) = 1 := by linarith
      have h4 : w * h = 1 := by exact_mod_cast h3
      omega
  · intro g hw hh
    have hval : calculate_ssim_fp g g = some 0 := by
      simp [calculate_ssim_fp, hw, hh, fpDiv, fpAdd, fpMul, fpMax, fpMin,
        Finset.sum_range_one]
    refine ⟨?_, hval, ?_⟩
    · rw [hw, hh]
      norm_num
    · rw [hval]
      simp

/-- Witness for C10: the concrete one-pixel image. -/
theorem ssim_single_pixel_nan_witness :
    ((((1 * 1 : Nat) : ℚ) - 1 ≠ 0) ↔ 2 ≤ 1 * 1) ∧
    (((gray1.width * gray1.height : Nat) : ℚ) - 1 = 0 ∧
     calculate_ssim_fp gray1 gray1 = some 0 ∧
     calculate_ssim_fp gray1 gray1 ≠ some 1) :=
  ⟨ssim_single_pixel_nan.1 1 1 (by decide),
   ssim_single_pixel_nan.2 gray1 rfl rfl⟩

end Webshot
